import Mathlib

/-!
A shallow embedding of `src/linktimeplugin.hpp` (link-time plug-in management).

The header defines, for every plug-in base class `BASE`, a template class
`RegistrarBase<BASE>` whose function-local static vector `registrars()`
(lines 77-80) holds pointers to every registrar object constructed so far.
The constructor (lines 42-44) appends `this` to that vector; the derived
`Registrar<PLUGIN>` (lines 87-94) owns one `PLUGIN` instance `plugin_` and
its virtual `operator()` returns a reference to it; `plugins()` (lines 60-66)
maps every stored registrar pointer to `&(*r)()`; `begin()`/`end()`
(lines 68-74) expose the vector's iterator range; `linktimeplugin::plugins<T>`
(lines 109-112) forwards to `RegistrarBase<T>::plugins()`.

We model the per-instantiation static vectors as a state indexed by the
interface type's identity, registrar objects as values carrying an address
and the behaviour of the owned plug-in instance, and `push_back` with an
explicit allocation oracle so that allocation failure is representable.
-/

namespace linktimeplugin

variable {α γ : Type} {β : Type}

/-- Identity of a plug-in base class `BASE`: each instantiation
`RegistrarBase<BASE>` owns one function-local static vector (src lines 77-80),
so the registry state is keyed by the interface type. -/
abbrev Iface := Nat

/-- A registrar object `Registrar<PLUGIN>` (src lines 87-94): it owns the single
`PLUGIN` instance `plugin_`, and as a C++ object it has an identity, its
address `addr`. `β` is the behaviour of the concrete plug-in as observed
through the `BASE` interface's virtual operations. -/
structure Registrar (β : Type) where
  addr : Nat
  plugin_ : β
deriving DecidableEq

/-- An interface handle `BASE*`: an address together with the behaviour of the
object it designates (dereferencing the pointer and calling the interface's
virtual operations observes exactly that behaviour). -/
structure Ptr (β : Type) where
  addr : Nat
  val : β
deriving DecidableEq

/-- The virtual accessor `BASE& Registrar<PLUGIN>::operator()()`
(src lines 91-93): it returns a reference to the owned `plugin_` member
subobject, so taking the address of the result (`&(*r)()` on src line 63)
yields a pointer to that member: the registrar's storage, seen as `BASE`. -/
def Registrar.call (r : Registrar β) : Ptr β := ⟨r.addr, r.plugin_⟩

/-- The global registry state: for every interface identity, the contents of
the function-local static `RegistarColl regs` inside `registrars()`
(src lines 77-80). An instantiation whose vector has not been touched yet is
modelled by the empty list, matching the lazily default-constructed empty
vector. -/
abbrev State (β : Type) := Iface → List (Registrar β)

/-- The state before any registrar has been constructed: every instantiation's
vector is empty when first constructed. -/
def State.empty : State β := fun _ => []

/-- `std::vector::push_back` with an explicit allocation oracle: when `ok` is
false, growing the backing storage fails and `push_back` raises
(`std::bad_alloc`); otherwise the element is appended at the end and the
earlier elements keep their positions. -/
def pushBack (ok : Bool) (v : List α) (x : α) : Except Unit (List α) :=
  if ok then Except.ok (v ++ [x]) else Except.error ()

/-- The effect of a successful registration: `registrars().push_back(this)`
appends the registrar to its own instantiation's vector and touches no other
instantiation's vector. -/
def addTo (σ : State β) (i : Iface) (r : Registrar β) : State β :=
  fun j => if j = i then σ i ++ [r] else σ j

/-- `RegistrarBase<BASE>::RegistrarBase()` (src lines 42-44): the body is
exactly `registrars().push_back(this);`, with no handler around it, so a
failure raised by `push_back` leaves the constructor body unhandled (the
constructor being declared `noexcept`, the C++ runtime then terminates the
process). -/
def ctorRun (ok : Bool) (σ : State β) (i : Iface) (r : Registrar β) :
    Except Unit (State β) :=
  match pushBack ok (σ i) r with
  | Except.ok regs => Except.ok (fun j => if j = i then regs else σ j)
  | Except.error e => Except.error e

/-- `static PluginColl plugins()` (src lines 60-66): builds a local vector
`ret` by pushing `&(*r)()` for each registrar pointer `r` stored in
`registrars()`, in storage order, and returns it. -/
def RegistrarBase.plugins (regs : List (Registrar β)) : List (Ptr β) :=
  regs.foldl (fun ret r => ret ++ [r.call]) []

/-- `linktimeplugin::plugins<T>()` (src lines 109-112): forwards to
`RegistrarBase<T>::plugins()`, which reads that instantiation's
`registrars()` vector. -/
def plugins (σ : State β) (i : Iface) : List (Ptr β) :=
  RegistrarBase.plugins (σ i)

/-- The element sequence denoted by the iterator pair returned by
`static begin()` and `static end()` (src lines 68-74): the two vector
iterators delimit exactly the elements of `registrars()`, in storage order. -/
def RegistrarBase.iterRange (regs : List (Registrar β)) : List (Registrar β) :=
  regs

/-- `plugins()` as an operation on the registry state: it only reads
`registrars()` and builds a fresh local vector, so it returns the enumeration
together with the state it leaves behind, which is the state it was given. -/
def pluginsOp (σ : State β) (i : Iface) : List (Ptr β) × State β :=
  (RegistrarBase.plugins (σ i), σ)

/-- The operations the header exposes on a registry: the registering
constructor (src lines 42-44) and the three read accessors `plugins()`,
`begin()`, `end()` (src lines 60-74). -/
inductive Op (β : Type) where
  | add (i : Iface) (r : Registrar β)
  | plugins (i : Iface)
  | beginIt (i : Iface)
  | endIt (i : Iface)

/-- The registry state after one operation: a (successful) `add` appends one
registrar to its interface's vector; the read accessors do not write the
state at all. -/
def Op.apply : Op β → State β → State β
  | Op.add i r, σ => addTo σ i r
  | Op.plugins _, σ => σ
  | Op.beginIt _, σ => σ
  | Op.endIt _, σ => σ

/-- A whole start-up sequence of (successful) registrar constructions, run
from a given state: each construction appends to the vector of the interface
it registers for. -/
def runAddsFrom (σ : State β) (ops : List (Iface × Registrar β)) : State β :=
  ops.foldl (fun s p => addTo s p.1 p.2) σ

/-- The registry state produced by a start-up sequence of registrations
starting from the untouched state. -/
def runAdds (ops : List (Iface × Registrar β)) : State β :=
  runAddsFrom State.empty ops

/-- Helper: the accumulating loop of `plugins()` (push into `ret`) is the map
of the virtual accessor over the registrar vector. -/
theorem foldl_push_eq_append (f : α → γ) (l : List α) (acc : List γ) :
    l.foldl (fun ret r => ret ++ [f r]) acc = acc ++ l.map f := by
  induction l generalizing acc with
  | nil => simp
  | cons x xs ih => simp [List.foldl_cons, ih]

/-- Helper: `plugins()` maps each stored registrar to the address of the
plug-in instance its virtual accessor returns. -/
theorem plugins_eq_map (regs : List (Registrar β)) :
    RegistrarBase.plugins regs = regs.map Registrar.call := by
  simpa using foldl_push_eq_append Registrar.call regs []

/-- Helper: after a start-up sequence, an interface's vector is its previous
contents followed by exactly the registrars that registered for it, in
registration order. -/
theorem runAddsFrom_apply (ops : List (Iface × Registrar β)) (σ : State β)
    (i : Iface) :
    runAddsFrom σ ops i
      = σ i ++ ops.filterMap (fun p => if p.1 = i then some p.2 else none) := by
  induction ops generalizing σ with
  | nil => simp [runAddsFrom]
  | cons p ps ih =>
    have h1 : runAddsFrom σ (p :: ps) = runAddsFrom (addTo σ p.1 p.2) ps := rfl
    rw [h1, ih]
    by_cases h : p.1 = i
    · subst h
      simp [addTo]
    · simp [addTo, h, Ne.symm h]

/-- Helper: registering a list of registrars all for the same interface makes
that interface's vector exactly that list. -/
theorem runAdds_same (i : Iface) (rs : List (Registrar β)) :
    runAdds (rs.map fun r => (i, r)) i = rs := by
  rw [runAdds, runAddsFrom_apply]
  simp only [State.empty, List.nil_append, List.filterMap_map]
  induction rs with
  | nil => rfl
  | cons x xs ih => simpa [List.filterMap_cons] using ih

/-- Claim C1, as written, is false on the code: the constructor body
(src lines 42-44) is `registrars().push_back(this);` with no handler, so a
failure raised while appending is not caught and suppressed — at the concrete
input where `push_back` fails on the untouched registry, the construction run
ends in the raised error instead of returning the unchanged registry. -/
theorem claim1_counterexample :
    ctorRun false (State.empty : State Nat) 0 ⟨1, 0⟩ = Except.error () := rfl

/-- Claim C1 (amended): the constructor performs exactly the unguarded append.
When `push_back` succeeds the registrar is appended at the end of its own
interface's vector with every previously stored entry and every other
interface's vector unchanged; when `push_back` fails, the failure is NOT
caught: it propagates out of the constructor body (and, the constructor being
`noexcept`, the C++ runtime terminates the process). -/
theorem claim1_ctor_propagates_failure (ok : Bool) (σ : State β) (i : Iface)
    (r : Registrar β) :
    ctorRun ok σ i r
      = if ok then Except.ok (addTo σ i r) else Except.error () := by
  cases ok <;> rfl

/-- Claim C2: after a start-up sequence registering the list `rs` of
registrars for interface `i`, in that order, `linktimeplugin::plugins<T>()`
returns exactly `rs.length` handles; the k-th handle is the pointer produced
by the k-th registered registrar's virtual accessor, and dereferencing it
observes the behaviour of the k-th registered concrete implementation. -/
theorem claim2_plugins_exact (i : Iface) (rs : List (Registrar β)) :
    (plugins (runAdds (rs.map fun r => (i, r))) i).length = rs.length ∧
    (∀ k : Nat,
      (plugins (runAdds (rs.map fun r => (i, r))) i)[k]?
        = (rs[k]?).map Registrar.call) ∧
    (∀ k : Nat,
      ((plugins (runAdds (rs.map fun r => (i, r))) i)[k]?).map Ptr.val
        = (rs[k]?).map Registrar.plugin_) := by
  rw [plugins, runAdds_same, plugins_eq_map]
  refine ⟨by simp, fun k => by simp, fun k => ?_⟩
  simp [List.getElem?_map, Registrar.call]
  cases rs[k]? <;> rfl

/-- Claim C3: the iterator pair and the whole-collection enumeration denote
the same sequence — mapping each element of the range between `begin()` and
`end()` through the virtual accessor `operator()` yields exactly the sequence
returned by `plugins()`, element for element and in the same order. -/
theorem claim3_iter_agrees_with_plugins (regs : List (Registrar β)) :
    (RegistrarBase.iterRange regs).map Registrar.call
      = RegistrarBase.plugins regs := by
  rw [plugins_eq_map, RegistrarBase.iterRange]

/-- Claim C8: enumeration is idempotent — `plugins()` does not write the
registry state, and two consecutive calls with no intervening registration
return the same sequence of handles, in the same order. -/
theorem claim8_enumeration_idempotent (σ : State β) (i : Iface) :
    (pluginsOp σ i).2 = σ ∧
    (pluginsOp ((pluginsOp σ i).2) i).1 = (pluginsOp σ i).1 ∧
    (pluginsOp ((pluginsOp σ i).2) i).2 = σ :=
  ⟨rfl, rfl, rfl⟩

/-- Claim C4: registries of distinct interface types are isolated. A
registration for interface `A` leaves interface `B`'s vector unchanged, and
after any start-up sequence every handle enumerated for `B` comes from a
registrar that was registered for `B` — never from one registered for a
different interface. -/
theorem claim4_registries_isolated (A B : Iface) (σ : State β)
    (r : Registrar β) (ops : List (Iface × Registrar β)) (hAB : A ≠ B) :
    addTo σ A r B = σ B ∧
    ∀ p ∈ plugins (runAdds ops) B, ∃ q, (B, q) ∈ ops ∧ p = q.call := by
  constructor
  · simp [addTo, Ne.symm hAB]
  · intro p hp
    rw [plugins, runAdds, runAddsFrom_apply, plugins_eq_map] at hp
    simp only [State.empty, List.nil_append, List.mem_map,
      List.mem_filterMap] at hp
    obtain ⟨q, ⟨⟨j, r2⟩, hmem, hq⟩, hcall⟩ := hp
    by_cases hj : j = B
    · subst hj
      simp at hq
      subst hq
      exact ⟨r2, hmem, hcall.symm⟩
    · simp [hj] at hq

/-- Claim C4 witness: a concrete isolated pair — registering for interface 0
leaves interface 1's vector unchanged, and interface 1's enumeration only
contains handles registered for interface 1. -/
theorem claim4_registries_isolated_witness :
    (0 : Iface) ≠ 1 ∧
    (addTo (State.empty : State Nat) 0 ⟨1, 5⟩ 1 = State.empty 1 ∧
     ∀ p ∈ plugins (runAdds [((0 : Iface), (⟨1, 5⟩ : Registrar Nat))]) 1,
       ∃ q, ((1 : Iface), q) ∈ [((0 : Iface), (⟨1, 5⟩ : Registrar Nat))]
         ∧ p = q.call) :=
  ⟨by decide,
   claim4_registries_isolated 0 1 State.empty ⟨1, 5⟩
     [((0 : Iface), (⟨1, 5⟩ : Registrar Nat))] (by decide)⟩

/-- Claim C5: the registry is append-only and order preserving. Every
operation of the API either appends exactly one entry at the end of one
interface's vector (a successful registration) or leaves the stored sequence
unchanged (the read accessors); in particular the entries already stored keep
their positions — taking the old length's worth of the new vector gives back
the old vector, so nothing is ever removed or reordered. -/
theorem claim5_append_only (op : Op β) (σ : State β) (i : Iface) :
    (Op.apply op σ i).take (σ i).length = σ i ∧
    (Op.apply op σ i = σ i ∨ ∃ r, Op.apply op σ i = σ i ++ [r]) := by
  cases op with
  | add j r =>
    by_cases h : i = j
    · subst h
      constructor
      · simp [Op.apply, addTo, List.take_left]
      · exact Or.inr ⟨r, by simp [Op.apply, addTo]⟩
    · constructor
      · simp [Op.apply, addTo, h]
      · exact Or.inl (by simp [Op.apply, addTo, h])
  | plugins j => exact ⟨by simp [Op.apply], Or.inl rfl⟩
  | beginIt j => exact ⟨by simp [Op.apply], Or.inl rfl⟩
  | endIt j => exact ⟨by simp [Op.apply], Or.inl rfl⟩

/-- Claim C6: registering the same concrete plug-in type twice (two
`REGISTER_PLUGIN` occurrences expand to two distinct static `Registrar<x>`
objects) yields two distinct registry entries: the enumeration gains exactly
the two handles, in order, and they are behaviourally identical (same
observed plug-in behaviour) but distinct in identity (different addresses);
no duplicate is detected or rejected. -/
theorem claim6_duplicate_entries (σ : State β) (i : Iface)
    (r₁ r₂ : Registrar β) (hbeh : r₁.plugin_ = r₂.plugin_)
    (hid : r₁.addr ≠ r₂.addr) :
    plugins (addTo (addTo σ i r₁) i r₂) i
      = plugins σ i ++ [r₁.call, r₂.call] ∧
    r₁.call.val = r₂.call.val ∧ r₁.call.addr ≠ r₂.call.addr := by
  refine ⟨?_, hbeh, hid⟩
  simp [plugins, plugins_eq_map, addTo]

/-- Claim C6 witness: two concrete registrars for interface 0 with the same
behaviour `7` at distinct addresses 1 and 2 produce two entries. -/
theorem claim6_duplicate_entries_witness :
    ((⟨1, 7⟩ : Registrar Nat).plugin_ = (⟨2, 7⟩ : Registrar Nat).plugin_ ∧
     (⟨1, 7⟩ : Registrar Nat).addr ≠ (⟨2, 7⟩ : Registrar Nat).addr) ∧
    (plugins (addTo (addTo (State.empty : State Nat) 0 ⟨1, 7⟩) 0 ⟨2, 7⟩) 0
       = plugins (State.empty : State Nat) 0
           ++ [Registrar.call ⟨1, 7⟩, Registrar.call ⟨2, 7⟩] ∧
     (Registrar.call (⟨1, 7⟩ : Registrar Nat)).val
       = (Registrar.call (⟨2, 7⟩ : Registrar Nat)).val ∧
     (Registrar.call (⟨1, 7⟩ : Registrar Nat)).addr
       ≠ (Registrar.call (⟨2, 7⟩ : Registrar Nat)).addr) :=
  ⟨⟨rfl, by decide⟩,
   claim6_duplicate_entries State.empty 0 ⟨1, 7⟩ ⟨2, 7⟩ rfl (by decide)⟩

/-- Claim C7: enumerating an interface with zero registrations succeeds and
returns the empty sequence — not an error and not a missing registry: the
lazily constructed vector is simply empty, the iterator range is empty, the
registry state is untouched, and iterating the result performs zero
iterations. -/
theorem claim7_empty_enumeration (σ : State β) (i : Iface) (h : σ i = []) :
    (pluginsOp σ i).1 = [] ∧ (pluginsOp σ i).2 = σ ∧
    RegistrarBase.iterRange (σ i) = [] ∧
    ((pluginsOp σ i).1).foldl (fun n _ => n + 1) 0 = 0 := by
  refine ⟨?_, rfl, ?_, ?_⟩ <;>
    simp [pluginsOp, RegistrarBase.iterRange, RegistrarBase.plugins, h]

/-- Claim C7 witness: the untouched registry state at interface 0. -/
theorem claim7_empty_enumeration_witness :
    ((State.empty : State Nat) 0 = []) ∧
    ((pluginsOp (State.empty : State Nat) 0).1 = [] ∧
     (pluginsOp (State.empty : State Nat) 0).2 = State.empty ∧
     RegistrarBase.iterRange ((State.empty : State Nat) 0) = [] ∧
     ((pluginsOp (State.empty : State Nat) 0).1).foldl
       (fun n _ => n + 1) 0 = 0) :=
  ⟨rfl, claim7_empty_enumeration State.empty 0 rfl⟩

/-- Claim C10: every handle returned by the enumeration is the address
obtained from some stored registrar's virtual accessor — a pointer to the
plug-in instance that registrar owns — and, registrar objects never residing
at the null address, no returned handle is null. -/
theorem claim10_handles_nonnull (regs : List (Registrar β))
    (hnn : ∀ r ∈ regs, r.addr ≠ 0) :
    ∀ p ∈ RegistrarBase.plugins regs,
      p.addr ≠ 0 ∧ ∃ r ∈ regs, p = r.call ∧ p.val = r.plugin_ := by
  intro p hp
  rw [plugins_eq_map] at hp
  obtain ⟨r, hr, hcall⟩ := List.mem_map.mp hp
  subst hcall
  exact ⟨hnn r hr, r, hr, rfl, rfl⟩

/-- Claim C10 witness: a one-registrar vector at a non-null address. -/
theorem claim10_handles_nonnull_witness :
    (∀ r ∈ ([⟨3, 9⟩] : List (Registrar Nat)), r.addr ≠ 0) ∧
    ∀ p ∈ RegistrarBase.plugins ([⟨3, 9⟩] : List (Registrar Nat)),
      p.addr ≠ 0 ∧ ∃ r ∈ ([⟨3, 9⟩] : List (Registrar Nat)),
        p = r.call ∧ p.val = r.plugin_ :=
  ⟨by decide, claim10_handles_nonnull [⟨3, 9⟩] (by decide)⟩

end linktimeplugin
